import Mathlib

/-!
Verification of the kvdb key-value store (github.com/ochaton/kvdb) against its
natural-language specification.

The development shallowly embeds the Go source:

* byte slices become `List Nat`; a Go `[]byte` can also be `nil`, which is
  distinguished from the empty non-nil slice (`bytes.Compare` treats them as
  equal, while `key == nil` checks distinguish them), hence `GoKey`;
* the per-space btree of records becomes an association list keyed by the
  record key bytes (the btree keeps at most one entry per comparison-equal
  key; `TreeWF` states that well-formedness where a proof needs it);
* the writer file I/O is modelled with explicit file-system values
  (lists of named files) and explicit success/failure outcomes for each
  OS call, threaded through the functions exactly where the Go code
  inspects an `error` result.
-/

deriving instance DecidableEq for Except

namespace Kvdb

/-! ### Bytes and Go byte-slice keys -/

/-- A byte string (`[]byte` contents). -/
abbrev Bytes := List Nat

/-- A Go `[]byte` used as a key: either the `nil` slice or a (possibly empty)
non-nil slice.  `space.go` compares keys with `bytes.Compare`, for which `nil`
and the empty slice are equal, but `impl.Get` tests `key == nil`, which only
the `goNil` value satisfies. -/
inductive GoKey where
  | goNil : GoKey
  | goBytes (b : Bytes) : GoKey
deriving DecidableEq, Repr

/-- The bytes a key contributes to `bytes.Compare`: `nil` compares as empty. -/
def keyBytes : GoKey → Bytes
  | .goNil => []
  | .goBytes b => b

/-! ### Records (`record.go`) -/

/-- `record`: a single entry of the btree of a space.  `value` is the opaque
application value (`any` in Go); the model is polymorphic in it. -/
structure Record (α : Type) where
  lsn : Nat
  time : Int
  key : GoKey
  tag : String
  value : α
deriving DecidableEq, Repr

/-! ### The btree content of a space, as an association list

`tidwall/btree` with the comparator `bytes.Compare(a.Key, b.Key) < 0` keeps at
most one record per key-bytes; `Set` returns the replaced record, `Delete` and
`Get` the found one. -/

/-- `tree.Set r`: replace the (first) record with the same key bytes, or append;
returns the new tree and the previous record (`prev`). -/
def treeInsert {α : Type} : List (Record α) → Record α → List (Record α) × Option (Record α)
  | [], r => ([r], none)
  | x :: xs, r =>
    if keyBytes x.key = keyBytes r.key then
      (r :: xs, some x)
    else
      let (t, prev) := treeInsert xs r
      (x :: t, prev)

/-- `tree.Delete` keyed by key bytes: remove the (first) record with these key
bytes; returns the new tree and the removed record. -/
def treeRemove {α : Type} : List (Record α) → Bytes → List (Record α) × Option (Record α)
  | [], _ => ([], none)
  | x :: xs, kb =>
    if keyBytes x.key = kb then
      (xs, some x)
    else
      let (t, prev) := treeRemove xs kb
      (x :: t, prev)

/-- `tree.Get` keyed by key bytes. -/
def treeFind {α : Type} : List (Record α) → Bytes → Option (Record α)
  | [], _ => none
  | x :: xs, kb => if keyBytes x.key = kb then some x else treeFind xs kb

/-- The btree invariant: at most one record per key bytes. -/
def TreeWF {α : Type} (t : List (Record α)) : Prop :=
  (t.map fun r => keyBytes r.key).Nodup

/-! ### Space state (`space.go`) -/

/-- The mutable state of a `space`: its name, its btree content, and the
`resets` ("dead") counter. -/
structure SpaceState (α : Type) where
  name : String
  tree : List (Record α)
  dead : Nat
deriving DecidableEq, Repr

/-- `newSpace`: empty tree, zero dead counter. -/
def newSpace {α : Type} (name : String) : SpaceState α :=
  { name := name, tree := [], dead := 0 }

/-- `space.Inc`: `resets.Add(1)`. -/
def Inc {α : Type} (sp : SpaceState α) : SpaceState α :=
  { sp with dead := sp.dead + 1 }

/-- `space.Dec(sub)`: the CAS loop refuses when the counter is below `sub`
(returning `false` and leaving the counter), otherwise subtracts `sub`.
Sequentially this is exactly the conditional below. -/
def Dec {α : Type} (sp : SpaceState α) (sub : Nat) : SpaceState α × Bool :=
  if sp.dead < sub then (sp, false) else ({ sp with dead := sp.dead - sub }, true)

/-- `space.TreeSet`: insert into the btree; when a previous record existed,
`Inc` the dead counter.  (The `r == nil` guard cannot fire in the model, where
the record is passed by value.) -/
def TreeSet {α : Type} (sp : SpaceState α) (r : Record α) : SpaceState α × Option (Record α) :=
  let (t, prev) := treeInsert sp.tree r
  ({ sp with
      tree := t
      dead := if prev.isSome then sp.dead + 1 else sp.dead }, prev)

/-- `space.TreeDel`: delete from the btree by the key of the record; when a record
was removed (live → absent), `Inc` the dead counter. -/
def TreeDel {α : Type} (sp : SpaceState α) (r : Record α) : SpaceState α × Option (Record α) :=
  let (t, prev) := treeRemove sp.tree (keyBytes r.key)
  ({ sp with
      tree := t
      dead := if prev.isSome then sp.dead + 1 else sp.dead }, prev)

/-- `space.TreeGet`. -/
def TreeGet {α : Type} (sp : SpaceState α) (r : Record α) : Option (Record α) :=
  treeFind sp.tree (keyBytes r.key)

/-! ### The writer reply to a single `Write` request

`writer.Write(op)` blocks until the worker has processed the message; the
worker assigns `op.LSN = lsn+1`, writes the JSON line and returns the write
error, if any.  From the viewpoint of the caller the outcome is either an
error or the assigned LSN, which is what `WriteReply` records. -/

/-- Outcome of `wr.Write(&op)` as seen by the space: an error, or success with
the LSN the worker assigned to the operation. -/
abbrev WriteReply := Except String Nat

/-- `space.WriteSet`: build the `set` operation (stamped with the current
time), send it to the writer; on success copy the assigned LSN and time into
the record. -/
def WriteSet {α : Type} (wres : WriteReply) (now : Int) (r : Record α) :
    Except String (Record α) :=
  match wres with
  | .error e => .error e
  | .ok lsn => .ok { r with lsn := lsn, time := now }

/-- `space.WriteDel`: same shape as `WriteSet` with a `del` operation. -/
def WriteDel {α : Type} (wres : WriteReply) (now : Int) (r : Record α) :
    Except String (Record α) :=
  match wres with
  | .error e => .error e
  | .ok lsn => .ok { r with lsn := lsn, time := now }

/-! ### Public space operations (`impl` in `space.go`) -/

/-- `impl.Set`: allocate the record with `LSN: 0`, write the `set` op through
the writer, and only on success install the record into the tree.  There is no
nil-key check in the source.  Returns the error (if any) and the new space
state. -/
def Set {α : Type} (sp : SpaceState α) (key : GoKey) (value : α)
    (wres : WriteReply) (now : Int) : Option String × SpaceState α :=
  let rec0 : Record α := { lsn := 0, time := 0, key := key, tag := sp.name, value := value }
  match WriteSet wres now rec0 with
  | .error e => (some e, sp)
  | .ok rec1 => (none, (TreeSet sp rec1).1)

/-- `impl.Del`: allocate a record with only key and tag, write the `del` op,
and only on success remove the tree entry.  No nil-key check in the source. -/
def Del {α : Type} (sp : SpaceState α) (key : GoKey) (defaultValue : α)
    (wres : WriteReply) (now : Int) : Option String × SpaceState α :=
  let rec0 : Record α := { lsn := 0, time := 0, key := key, tag := sp.name, value := defaultValue }
  match WriteDel wres now rec0 with
  | .error e => (some e, sp)
  | .ok rec1 => (none, (TreeDel sp rec1).1)

/-- `impl.Get`: reject the `nil` key, look the key up in the tree, report
`ErrNotFound` on a miss; on a hit the value is JSON-round-tripped into the
target of the caller and the header slot receives the LSN of the record.  The model
returns the value together with that header LSN. -/
def Get {α : Type} (sp : SpaceState α) (key : GoKey) : Except String (α × Nat) :=
  if key = GoKey.goNil then .error "key is nil"
  else
    match treeFind sp.tree (keyBytes key) with
    | none => .error "record not found"
    | some r => .ok (r.value, r.lsn)

/-! ### Operations and the database layer (`operation.go`, `kvdb.go`) -/

/-- `oType`: the operation kind stored in a log line. -/
inductive OType where
  | opSet : OType
  | opDel : OType
  | opBegin : OType
  | opCommit : OType
  | opRollback : OType
deriving DecidableEq, Repr

/-- `operation`: a log entry.  `record` is modelled as always present: every
line the system itself writes (and every line of the documented on-disk
format) carries a record object. -/
structure Operation (α : Type) where
  lsn : Nat
  op : OType
  time : Int
  record : Record α
deriving DecidableEq, Repr

/-- The space registry of the database `spaces map[string]space`, as an
association list (map semantics: at most one entry per name is maintained by
`dbSet`). -/
abbrev DB (α : Type) := List (String × SpaceState α)

/-- Map lookup on the registry. -/
def dbFind {α : Type} : DB α → String → Option (SpaceState α)
  | [], _ => none
  | (n, sp) :: rest, name => if n = name then some sp else dbFind rest name

/-- Map update on the registry: replace the entry, or append a new one. -/
def dbSet {α : Type} : DB α → String → SpaceState α → DB α
  | [], name, sp => [(name, sp)]
  | (n, old) :: rest, name, sp =>
    if n = name then (n, sp) :: rest else (n, old) :: dbSet rest name sp

/-- `T.applyTxn` (`kvdb.go`): stamp the LSN of the operation into its record; for a
`set`, install the record into the tree of the target space (creating the space if
needed); for a `del`, remove the key of the record from the target space when that
space exists, otherwise do nothing; for any other kind, fail with
`ErrOperationUnknownType`.  Returns the applied LSN. -/
def applyTxn {α : Type} (db : DB α) (txn : Operation α) : Except String (DB α × Nat) :=
  let rec1 := { txn.record with lsn := txn.lsn }
  match txn.op with
  | .opSet =>
    let sp := (dbFind db rec1.tag).getD (newSpace rec1.tag)
    let sp1 := (TreeSet sp rec1).1
    .ok (dbSet db rec1.tag sp1, txn.lsn)
  | .opDel =>
    match dbFind db rec1.tag with
    | some sp =>
      let sp1 := (TreeDel sp rec1).1
      .ok (dbSet db rec1.tag sp1, txn.lsn)
    | none => .ok (db, txn.lsn)
  | _ => .error "unknown operation type"

/-- `writer.loadFrom` restricted to an already-decoded list of operations:
starting from the current LSN of the writer, replay each operation through
`applyTxn`, assigning `current+1` to operations stored with `lsn == 0`, and
stop with the first error. -/
def loadFromOps {α : Type} (db : DB α) (lsn0 : Nat) :
    List (Operation α) → Except String (DB α × Nat)
  | [] => .ok (db, lsn0)
  | op :: rest =>
    let op1 := if op.lsn = 0 then { op with lsn := lsn0 + 1 } else op
    match applyTxn db op1 with
    | .error e => .error e
    | .ok (db1, lsn1) => loadFromOps db1 lsn1 rest

/-! ### The writer LSN counter (`writer.go`) -/

/-- The atomic LSN of the writer. -/
structure WriterLSN where
  lsn : Nat
deriving DecidableEq, Repr

/-- `writer.setLSN`: the CAS loop only ever replaces a smaller value, so it
settles on the maximum of the stored and the proposed LSN. -/
def setLSN (s : WriterLSN) (lsn : Nat) : WriterLSN :=
  if s.lsn < lsn then { lsn := lsn } else s

/-- `writer.getLSN`. -/
def getLSN (s : WriterLSN) : Nat := s.lsn

/-- `writer.write(op)`: assign `op.LSN = getLSN()+1`, attempt the file write
(`ok` says whether `writeTo` succeeded), and only on success `setLSN` the
assigned value.  Returns the new writer state, the LSN stamped on the
operation, and whether the operation became durable. -/
def writerWrite (s : WriterLSN) (ok : Bool) : WriterLSN × Nat × Bool :=
  let assigned := getLSN s + 1
  if ok then (setLSN s assigned, assigned, true) else (s, assigned, false)

/-- The worker processing a queue of write requests in order; each request
carries the success/failure of its `writeTo` call. -/
def runWrites (s : WriterLSN) : List Bool → WriterLSN × List (Nat × Bool)
  | [] => (s, [])
  | ok :: rest =>
    let (s1, assigned, durable) := writerWrite s ok
    let (s2, out) := runWrites s1 rest
    (s2, (assigned, durable) :: out)

/-- The LSNs of the durably written operations, in write order. -/
def durableLSNs (out : List (Nat × Bool)) : List Nat :=
  (out.filter fun p => p.2).map fun p => p.1

/-! ### File names (`writer.go`: `lsn2str`, `list`) -/

/-- `lsn2str`: `fmt.Sprintf("%010d", lsn)` — decimal, left-padded with zeros
to at least 10 digits. -/
def lsn2str (lsn : Nat) : String :=
  let s := toString lsn
  String.mk (List.replicate (10 - s.length) '0') ++ s

/-- `strings.HasSuffix`. -/
def strEndsWith (s suffix : String) : Bool :=
  List.isSuffixOf suffix.data s.data

/-- One `os.DirEntry` as far as `writer.list` inspects it. -/
structure DirEntry where
  name : String
  isDir : Bool
  isRegular : Bool
deriving DecidableEq, Repr

/-- `writer.list`: keep the names of regular non-directory entries ending in
`".jlog"`, sorted lexicographically (`sort.Slice` by name).  `Load` then
replays exactly these files in this order. -/
def list (entries : List DirEntry) : List String :=
  List.insertionSort (· ≤ ·)
    ((entries.filter fun e => !e.isDir && e.isRegular && strEndsWith e.name ".jlog").map
      fun e => e.name)

/-! ### The recovery selection of the claim, written from the words of the spec

"List files whose name matches `^\d{10}\.(jlog|snap)$`; find the latest
`.snap` (largest LSN-floor); let `S` be its floor (else 0); include it and
every `.jlog` whose floor is `≥ S`, in lexicographic order." -/

/-- Numeric value of a run of decimal digits. -/
def digitsVal (cs : List Char) : Nat :=
  cs.foldl (fun acc c => acc * 10 + (c.toNat - 48)) 0

/-- Parse a data-file name `^\d{10}\.(jlog|snap)$`; returns the LSN floor and
whether the file is a snapshot. -/
def parseDataFile (s : String) : Option (Nat × Bool) :=
  let cs := s.data
  if cs.length == 15 && (cs.take 10).all Char.isDigit then
    if cs.drop 10 = ".jlog".data then some (digitsVal (cs.take 10), false)
    else if cs.drop 10 = ".snap".data then some (digitsVal (cs.take 10), true)
    else none
  else none

/-- The LSN floor of a data-file name (0 if the name does not parse). -/
def floorOf (s : String) : Nat :=
  ((parseDataFile s).map fun p => p.1).getD 0

/-- The recovery file selection exactly as the claim states it (not as the
code implements it): the latest `.snap` if any, followed by every `.jlog`
whose LSN-floor is at least the floor of that snapshot, in lexicographic order. -/
def specSelectedFiles (entries : List DirEntry) : List String :=
  let files :=
    (entries.filter fun e => !e.isDir && e.isRegular && (parseDataFile e.name).isSome).map
      fun e => e.name
  let snaps := files.filter fun n =>
    match parseDataFile n with
    | some (_, true) => true
    | _ => false
  let jlogs := files.filter fun n =>
    match parseDataFile n with
    | some (_, false) => true
    | _ => false
  let latestSnap := snaps.foldl
    (fun acc n =>
      match acc with
      | none => some n
      | some m => if floorOf m < floorOf n then some n else some m)
    none
  let S := match latestSnap with
    | some m => floorOf m
    | none => 0
  (match latestSnap with
    | some m => [m]
    | none => []) ++
    List.insertionSort (· ≤ ·) (jlogs.filter fun n => S ≤ floorOf n)

/-! ### The writer file state, rotation and lifecycle (`writer.go`) -/

/-- One file on disk, as far as `rotate` inspects it (`os.Stat` size). -/
structure FSFile where
  name : String
  size : Nat
deriving DecidableEq, Repr

/-- `os.Stat`: size of the named file, if present. -/
def fsStat : List FSFile → String → Option Nat
  | [], _ => none
  | f :: rest, n => if f.name = n then some f.size else fsStat rest n

/-- The writer state `rotate` and `Start` inspect: the LSN, the name of the
current log file (`w.file`, `none` before the first rotation) and the
`closed` flag of the source struct.  There is no lifecycle/status field in
the source struct, and nothing in the source ever assigns `closed` (the
channel-level consequences are modelled by `WriterChanSt` below). -/
structure WriterSt where
  lsn : Nat
  curName : Option String
  closed : Bool
deriving DecidableEq, Repr

/-- `newWriter`: no file yet, LSN 0 (nil atomic), `closed` false. -/
def newWriter : WriterSt :=
  { lsn := 0, curName := none, closed := false }

/-- The rotation target: `w.dir + "/" + lsn2str(getLSN()+1) + ".jlog"`. -/
def nextJlogName (dir : String) (lsn : Nat) : String :=
  dir ++ "/" ++ lsn2str (lsn + 1) ++ ".jlog"

/-- `writer.rotate`: compute `<getLSN()+1 padded>.jlog`; no-op when the
current file already has this name; fail when a non-empty file of this name
exists; otherwise create-or-reuse the (empty) file, sync-and-close the old
one and install the new file as current.  `MkdirAll`, `Sync` and `Close`
failures are OS conditions outside the model and are taken to succeed. -/
def rotate (dir : String) (st : WriterSt) (fs : List FSFile) :
    Except String (WriterSt × List FSFile) :=
  let jlogName := nextJlogName dir st.lsn
  if st.curName = some jlogName then .ok (st, fs)
  else
    match fsStat fs jlogName with
    | some sz =>
      if sz ≠ 0 then .error ("file " ++ jlogName ++ " already exists (and not empty)")
      else .ok ({ st with curName := some jlogName }, fs)
    | none => .ok ({ st with curName := some jlogName }, fs ++ [{ name := jlogName, size := 0 }])

/-- `writer.Start`: rotate, then launch the background worker (which does not
change the state observed here).  There is no state-machine check in the
source: `Start` fails exactly when `rotate` fails. -/
def Start (dir : String) (st : WriterSt) (fs : List FSFile) :
    Except String (WriterSt × List FSFile) :=
  rotate dir st fs

/-! #### The close/send lifecycle of the writer

`Send` and `Close` touch only the fields `closed` and `incoming` of the
source struct, so their state is modelled separately from the file state.
Crucially, nothing in `writer.go` ever assigns `w.closed`: the field is
declared and read by the guards in `Send` and `Close`, but no statement sets
it to `true`.  The state that actually changes is the request channel, which
`Close` closes (`close(w.incoming)`); in Go a second `close` of the same
channel panics, and a channel send into a closed channel panics. -/

/-- The lifecycle state `Send` and `Close` consult: the `closed` flag (never
assigned anywhere in the source) and whether `close(w.incoming)` has been
executed. -/
structure WriterChanSt where
  closed : Bool
  chanClosed : Bool
deriving DecidableEq, Repr

/-- The lifecycle state of a freshly constructed writer. -/
def newWriterChan : WriterChanSt :=
  { closed := false, chanClosed := false }

/-- What a `writer.Send` call does at the channel level. -/
inductive SendOutcome where
  | errClosed : SendOutcome
  | panicked : SendOutcome
  | delivered : SendOutcome
deriving DecidableEq, Repr

/-- `writer.Send`: the guard returns `ErrClosed` when the `closed` flag is
set (dead code, since the flag is never assigned); otherwise the message is
sent into `w.incoming` — a runtime panic when that channel has already been
closed, a delivery to the worker otherwise. -/
def Send (st : WriterChanSt) : SendOutcome :=
  if st.closed then .errClosed
  else if st.chanClosed then .panicked
  else .delivered

/-- What a `writer.Close` call does. -/
inductive CloseOutcome where
  | errClosed : CloseOutcome
  | panicked : CloseOutcome
  | closedOk : CloseOutcome
deriving DecidableEq, Repr

/-- `writer.Close`: return `ErrClosed` when the `closed` flag is set (dead
code — the flag is never assigned); otherwise execute `close(w.incoming)`,
which panics when the channel is already closed and otherwise closes it and
awaits the worker (drain and file-close errors abstracted).  The `closed`
field itself is not written — the source contains no assignment to it. -/
def Close (st : WriterChanSt) : CloseOutcome × WriterChanSt :=
  if st.closed then (.errClosed, st)
  else if st.chanClosed then (.panicked, st)
  else (.closedOk, { st with chanClosed := true })

/-! ### The background compaction job (`writer.compactBackground`)

The outcome of each OS call the job makes is an explicit input, so the
file-system effect of the function can be stated per failure point. -/

/-- Outcomes of the fallible steps of one `compactBackground` run. -/
structure CompactIO where
  openErr : Option String
  implErr : Option String
  closeErr : Option String
  renameErr : Option String
  removeErr : String → Option String

/-- The final removal loop: delete every source jlog except the one that now
carries the compaction result, stopping at the first removal error. -/
def removeOldJlogs (dir newBase : String) (io : CompactIO) :
    List String → List String → List String × Option String
  | [], fs => (fs, none)
  | j :: rest, fs =>
    if j = newBase then removeOldJlogs dir newBase io rest fs
    else
      match io.removeErr j with
      | some e => (fs, some e)
      | none => removeOldJlogs dir newBase io rest (fs.erase (dir ++ "/" ++ j))

/-- `writer.compactBackground`: create `<lsn>.jlog.inprogress` with `O_EXCL`;
run the dump (`compactImpl`); on a dump error close and remove the in-progress
file; otherwise close it, rename it to `<lsn>.jlog` and remove the superseded
source jlogs.  The first component is the resulting set of files on disk, the
second the error delivered on the callback of the request (`none` on success). -/
def compactBackground (dir : String) (jlogs : List String) (lsn : Nat)
    (io : CompactIO) (fs : List String) : List String × Option String :=
  let inprog := dir ++ "/" ++ lsn2str lsn ++ ".jlog.inprogress"
  if inprog ∈ fs then (fs, some ("open " ++ inprog ++ ": file exists"))
  else
    match io.openErr with
    | some e => (fs, some e)
    | none =>
      let fs1 := fs ++ [inprog]
      match io.implErr with
      | some e => (fs1.erase inprog, some e)
      | none =>
        match io.closeErr with
        | some e => (fs1, some e)
        | none =>
          match io.renameErr with
          | some e => (fs1, some e)
          | none =>
            let newName := dir ++ "/" ++ lsn2str lsn ++ ".jlog"
            let fs2 := fs1.erase inprog ++ [newName]
            removeOldJlogs dir (lsn2str lsn ++ ".jlog") io jlogs fs2

/-! ### Helper lemmas about the tree association list -/

theorem treeFind_treeInsert_self {α : Type} (t : List (Record α)) (r : Record α) :
    treeFind (treeInsert t r).1 (keyBytes r.key) = some r := by
  induction t with
  | nil => simp [treeInsert, treeFind]
  | cons x xs ih =>
    by_cases h : keyBytes x.key = keyBytes r.key
    · simp [treeInsert, h, treeFind]
    · simp [treeInsert, h, treeFind, ih]

theorem treeFind_treeInsert_ne {α : Type} (t : List (Record α)) (r : Record α)
    (kb : Bytes) (h : kb ≠ keyBytes r.key) :
    treeFind (treeInsert t r).1 kb = treeFind t kb := by
  have h1 : ¬ keyBytes r.key = kb := Ne.symm h
  induction t with
  | nil => simp [treeInsert, treeFind, h1]
  | cons x xs ih =>
    by_cases hx : keyBytes x.key = keyBytes r.key
    · have h2 : ¬ keyBytes x.key = kb := by rw [hx]; exact h1
      simp [treeInsert, hx, treeFind, h1, h2]
    · simp [treeInsert, hx, treeFind, ih]

theorem treeInsert_snd_eq_find {α : Type} (t : List (Record α)) (r : Record α) :
    (treeInsert t r).2 = treeFind t (keyBytes r.key) := by
  induction t with
  | nil => simp [treeInsert, treeFind]
  | cons x xs ih =>
    by_cases h : keyBytes x.key = keyBytes r.key
    · simp [treeInsert, h, treeFind]
    · simp [treeInsert, h, treeFind, ih]

theorem treeRemove_snd_eq_find {α : Type} (t : List (Record α)) (kb : Bytes) :
    (treeRemove t kb).2 = treeFind t kb := by
  induction t with
  | nil => simp [treeRemove, treeFind]
  | cons x xs ih =>
    by_cases h : keyBytes x.key = kb
    · simp [treeRemove, h, treeFind]
    · simp [treeRemove, h, treeFind, ih]

theorem treeFind_eq_none_of_not_mem {α : Type} (t : List (Record α)) (kb : Bytes)
    (h : kb ∉ t.map fun r => keyBytes r.key) : treeFind t kb = none := by
  induction t with
  | nil => simp [treeFind]
  | cons x xs ih =>
    simp only [List.map_cons, List.mem_cons, not_or] at h
    have h1 : ¬ keyBytes x.key = kb := Ne.symm h.1
    simp [treeFind, h1, ih h.2]

theorem treeFind_treeRemove_self {α : Type} (t : List (Record α)) (kb : Bytes)
    (hwf : TreeWF t) : treeFind (treeRemove t kb).1 kb = none := by
  induction t with
  | nil => simp [treeRemove, treeFind]
  | cons x xs ih =>
    simp only [TreeWF, List.map_cons, List.nodup_cons] at hwf
    by_cases h : keyBytes x.key = kb
    · simpa [treeRemove, h] using treeFind_eq_none_of_not_mem xs kb (h ▸ hwf.1)
    · simp [treeRemove, h, treeFind, ih hwf.2]

theorem treeFind_treeRemove_ne {α : Type} (t : List (Record α)) (kb kb2 : Bytes)
    (h : kb2 ≠ kb) : treeFind (treeRemove t kb).1 kb2 = treeFind t kb2 := by
  induction t with
  | nil => simp [treeRemove, treeFind]
  | cons x xs ih =>
    by_cases hx : keyBytes x.key = kb
    · have h2 : ¬ kb = kb2 := Ne.symm h
      simp [treeRemove, hx, treeFind, h2]
    · simp [treeRemove, hx, treeFind, ih]

theorem dbFind_dbSet_self {α : Type} (db : DB α) (n : String) (sp : SpaceState α) :
    dbFind (dbSet db n sp) n = some sp := by
  induction db with
  | nil => simp [dbSet, dbFind]
  | cons x rest ih =>
    by_cases h : x.1 = n
    · simp [dbSet, dbFind, h]
    · simp [dbSet, dbFind, h, ih]

theorem dbFind_dbSet_ne {α : Type} (db : DB α) (n m : String) (sp : SpaceState α)
    (h : m ≠ n) : dbFind (dbSet db n sp) m = dbFind db m := by
  have h1 : ¬ n = m := Ne.symm h
  induction db with
  | nil => simp [dbSet, dbFind, h1]
  | cons x rest ih =>
    by_cases hx : x.1 = n
    · have h2 : ¬ x.1 = m := by rw [hx]; exact h1
      simp [dbSet, dbFind, hx, h1, h2]
    · simp [dbSet, dbFind, hx, ih]

/-! ### Claim C3: read-your-writes -/

/-- Claim C3, as stated, is false at the `nil` key: `Set(nil, 7)` returns
success (the source `impl.Set` never rejects a nil key, and the writer accepts
the operation), yet the subsequent `Get(nil)` does not return the written
value — it fails with the nil-key error.  The same input also refutes the
`Del` half of the claim. -/
theorem c3_read_your_writes_counterexample :
    (Set (α := Nat) (newSpace "users") GoKey.goNil 7 (.ok 1) 0).1 = none ∧
      Get (Set (α := Nat) (newSpace "users") GoKey.goNil 7 (.ok 1) 0).2 GoKey.goNil
        = .error "key is nil" ∧
      (Del (α := Nat) (newSpace "users") GoKey.goNil 7 (.ok 1) 0).1 = none ∧
      Get (Del (α := Nat) (newSpace "users") GoKey.goNil 7 (.ok 1) 0).2 GoKey.goNil
        ≠ .error "record not found" := by
  decide

/-- Claim C3 (amended: for every non-nil key): on a well-formed space, after
`Set(k, v)` returns successfully, `Get(k)` returns `v` carrying exactly the
LSN the writer assigned to the durable write; after `Del(k)` returns
successfully, `Get(k)` reports `ErrNotFound`. -/
theorem c3_read_your_writes_nonnil {α : Type} (sp : SpaceState α) (k : GoKey) (v : α)
    (n : Nat) (now : Int) (hwf : TreeWF sp.tree) (hk : k ≠ GoKey.goNil) :
    ((Set sp k v (.ok n) now).1 = none ∧
      Get (Set sp k v (.ok n) now).2 k = .ok (v, n)) ∧
    ((Del sp k v (.ok n) now).1 = none ∧
      Get (Del sp k v (.ok n) now).2 k = .error "record not found") := by
  refine ⟨⟨rfl, ?_⟩, ⟨rfl, ?_⟩⟩
  · have hfind := treeFind_treeInsert_self sp.tree
      { lsn := n, time := now, key := k, tag := sp.name, value := v }
    simp [Set, WriteSet, Get, hk, TreeSet, hfind]
  · have hfind := treeFind_treeRemove_self sp.tree (keyBytes k) hwf
    simp [Del, WriteDel, Get, hk, TreeDel, hfind]

/-- Witness for C3 (amended) at a concrete non-nil key on a fresh space. -/
theorem c3_read_your_writes_nonnil_witness :
    ((Set (α := Nat) (newSpace "users") (GoKey.goBytes [1]) 5 (.ok 3) 0).1 = none ∧
      Get (Set (α := Nat) (newSpace "users") (GoKey.goBytes [1]) 5 (.ok 3) 0).2
        (GoKey.goBytes [1]) = .ok (5, 3)) ∧
    ((Del (α := Nat) (newSpace "users") (GoKey.goBytes [1]) 5 (.ok 3) 0).1 = none ∧
      Get (Del (α := Nat) (newSpace "users") (GoKey.goBytes [1]) 5 (.ok 3) 0).2
        (GoKey.goBytes [1]) = .error "record not found") :=
  c3_read_your_writes_nonnil (newSpace "users") (GoKey.goBytes [1]) 5 3 0
    (by simp [TreeWF, newSpace]) (by decide)

/-! ### Claim C9: nil-key rejection -/

/-- Claim C9 is the stated behaviour of the spec, but the source `impl.Set`
and `impl.Del` perform no nil-key check at all: evaluating the embedded code
at the failing input, `Set(nil, 7)` returns no error and installs a record
under the nil key (so the space is changed), and `Del(nil)` also returns no
error.  Only `impl.Get` rejects the nil key. -/
theorem c9_nil_key_not_rejected :
    (Set (α := Nat) (newSpace "users") GoKey.goNil 7 (.ok 1) 0).1 = none ∧
      (Set (α := Nat) (newSpace "users") GoKey.goNil 7 (.ok 1) 0).2
        = { name := "users"
            tree := [{ lsn := 1, time := 0, key := GoKey.goNil, tag := "users", value := 7 }]
            dead := 0 } ∧
      (Del (α := Nat) (newSpace "users") GoKey.goNil 7 (.ok 1) 0).1 = none ∧
      Get (α := Nat) (newSpace "users") GoKey.goNil = .error "key is nil" := by
  decide

/-! ### Claim C10: mutation atomicity on writer error -/

/-- Claim C10: when the writer reports an error for the durable write issued
by `Set` or `Del`, the public operation returns exactly that error and the
space — its tree and its dead counter alike — is completely unchanged: the
index is only touched after the durable write succeeds. -/
theorem c10_writer_error_atomicity {α : Type} (sp : SpaceState α) (k : GoKey) (v : α)
    (e : String) (now : Int) :
    Set sp k v (.error e) now = (some e, sp) ∧
      Del sp k v (.error e) now = (some e, sp) := by
  simp [Set, Del, WriteSet, WriteDel]

/-! ### Claim C8: dead counter arithmetic -/

/-- Claim C8: `TreeSet` and `TreeDel` report as `prev` exactly the record
previously stored under the key (so `prev` is present iff the `Set` replaced
an existing key, resp. the `Del` removed a live record), and in exactly those
cases the dead counter grows by one; `Dec` — the decrement a successful
compaction applies with the amount observed in its view — subtracts exactly
`sub` when the counter is at least `sub` and otherwise refuses, so the
counter never wraps around and never exceeds its previous value. -/
theorem c8_dead_counter_arithmetic {α : Type} (sp : SpaceState α) (r rd : Record α)
    (sub : Nat) :
    ((TreeSet sp r).2 = treeFind sp.tree (keyBytes r.key)) ∧
      (∀ prev, (TreeSet sp r).2 = some prev → (TreeSet sp r).1.dead = sp.dead + 1) ∧
      ((TreeSet sp r).2 = none → (TreeSet sp r).1.dead = sp.dead) ∧
      ((TreeDel sp rd).2 = treeFind sp.tree (keyBytes rd.key)) ∧
      (∀ prev, (TreeDel sp rd).2 = some prev → (TreeDel sp rd).1.dead = sp.dead + 1) ∧
      ((TreeDel sp rd).2 = none → (TreeDel sp rd).1.dead = sp.dead) ∧
      (sub ≤ sp.dead → (Dec sp sub).1.dead = sp.dead - sub ∧ (Dec sp sub).2 = true) ∧
      ((Dec sp sub).1.dead ≤ sp.dead) := by
  refine ⟨?_, ?_, ?_, ?_, ?_, ?_, ?_, ?_⟩
  · simpa [TreeSet] using treeInsert_snd_eq_find sp.tree r
  · intro prev h
    simp only [TreeSet] at h ⊢
    simp [h]
  · intro h
    simp only [TreeSet] at h ⊢
    simp [h]
  · simpa [TreeDel] using treeRemove_snd_eq_find sp.tree (keyBytes rd.key)
  · intro prev h
    simp only [TreeDel] at h ⊢
    simp [h]
  · intro h
    simp only [TreeDel] at h ⊢
    simp [h]
  · intro hle
    have hnl : ¬ sp.dead < sub := Nat.not_lt.mpr hle
    simp [Dec, hnl]
  · by_cases hlt : sp.dead < sub
    · simp [Dec, hlt]
    · simp only [Dec, if_neg hlt]
      exact Nat.sub_le _ _

/-- Witness for C8: on a space with one live record under key `[1]` and dead
counter 2, replacing that key raises the counter to 3, deleting it raises the
counter to 3, `Dec 1` yields 1 with success, and `Dec 5` cannot lower the
counter below zero. -/
theorem c8_dead_counter_witness :
    (TreeSet (α := Nat)
        { name := "s"
          tree := [{ lsn := 1, time := 0, key := GoKey.goBytes [1], tag := "s", value := 9 }]
          dead := 2 }
        { lsn := 4, time := 0, key := GoKey.goBytes [1], tag := "s", value := 8 }).1.dead
      = 2 + 1 ∧
    (TreeDel (α := Nat)
        { name := "s"
          tree := [{ lsn := 1, time := 0, key := GoKey.goBytes [1], tag := "s", value := 9 }]
          dead := 2 }
        { lsn := 0, time := 0, key := GoKey.goBytes [1], tag := "s", value := 0 }).1.dead
      = 2 + 1 ∧
    (Dec (α := Nat) { name := "s", tree := [], dead := 2 } 1).1.dead = 2 - 1 ∧
    (Dec (α := Nat) { name := "s", tree := [], dead := 2 } 1).2 = true ∧
    (Dec (α := Nat) { name := "s", tree := [], dead := 2 } 5).1.dead ≤ 2 := by
  have h1 := c8_dead_counter_arithmetic (α := Nat)
    { name := "s"
      tree := [{ lsn := 1, time := 0, key := GoKey.goBytes [1], tag := "s", value := 9 }]
      dead := 2 }
    { lsn := 4, time := 0, key := GoKey.goBytes [1], tag := "s", value := 8 }
    { lsn := 0, time := 0, key := GoKey.goBytes [1], tag := "s", value := 0 } 1
  have h2 := c8_dead_counter_arithmetic (α := Nat) { name := "s", tree := [], dead := 2 }
    { lsn := 4, time := 0, key := GoKey.goBytes [1], tag := "s", value := 8 }
    { lsn := 0, time := 0, key := GoKey.goBytes [1], tag := "s", value := 0 } 1
  have h3 := c8_dead_counter_arithmetic (α := Nat) { name := "s", tree := [], dead := 2 }
    { lsn := 4, time := 0, key := GoKey.goBytes [1], tag := "s", value := 8 }
    { lsn := 0, time := 0, key := GoKey.goBytes [1], tag := "s", value := 0 } 5
  refine ⟨?_, ?_, ?_, ?_, ?_⟩
  · exact h1.2.1 { lsn := 1, time := 0, key := GoKey.goBytes [1], tag := "s", value := 9 }
      (by decide)
  · exact h1.2.2.2.2.1 { lsn := 1, time := 0, key := GoKey.goBytes [1], tag := "s", value := 9 }
      (by decide)
  · exact (h2.2.2.2.2.2.2.1 (by decide)).1
  · exact (h2.2.2.2.2.2.2.1 (by decide)).2
  · exact h3.2.2.2.2.2.2.2

/-! ### Claim C2: strictly monotonic LSN -/

theorem setLSN_mono (s : WriterLSN) (l : Nat) : s.lsn ≤ (setLSN s l).lsn := by
  by_cases h : s.lsn < l
  · simp [setLSN, h]
    omega
  · simp [setLSN, h]

theorem durableLSNs_cons_true (a : Nat) (out : List (Nat × Bool)) :
    durableLSNs ((a, true) :: out) = a :: durableLSNs out := by
  simp [durableLSNs]

theorem durableLSNs_cons_false (a : Nat) (out : List (Nat × Bool)) :
    durableLSNs ((a, false) :: out) = durableLSNs out := by
  simp [durableLSNs]

theorem runWrites_cons_true (s : WriterLSN) (rest : List Bool) :
    runWrites s (true :: rest)
      = ((runWrites (setLSN s (s.lsn + 1)) rest).1,
          (s.lsn + 1, true) :: (runWrites (setLSN s (s.lsn + 1)) rest).2) := by
  simp [runWrites, writerWrite, getLSN]

theorem runWrites_cons_false (s : WriterLSN) (rest : List Bool) :
    runWrites s (false :: rest)
      = ((runWrites s rest).1, (s.lsn + 1, false) :: (runWrites s rest).2) := by
  simp [runWrites, writerWrite, getLSN]

theorem runWrites_durable_facts (oks : List Bool) : ∀ s : WriterLSN,
    List.Chain' (· < ·) (durableLSNs (runWrites s oks).2) ∧
      (∀ x ∈ durableLSNs (runWrites s oks).2, s.lsn < x) ∧
      s.lsn ≤ (runWrites s oks).1.lsn := by
  induction oks with
  | nil => intro s; simp [runWrites, durableLSNs]
  | cons ok rest ih =>
    intro s
    cases ok with
    | false =>
      obtain ⟨hchain, hmem, hle⟩ := ih s
      rw [runWrites_cons_false]
      refine ⟨?_, ?_, ?_⟩
      · rw [durableLSNs_cons_false]
        exact hchain
      · rw [durableLSNs_cons_false]
        exact hmem
      · exact hle
    | true =>
      have hset : setLSN s (s.lsn + 1) = ⟨s.lsn + 1⟩ := by
        simp [setLSN]
      obtain ⟨hchain, hmem, hle⟩ := ih ⟨s.lsn + 1⟩
      rw [runWrites_cons_true, hset]
      have hle2 : s.lsn + 1 ≤ (runWrites ⟨s.lsn + 1⟩ rest).1.lsn := hle
      have hmem2 : ∀ x ∈ durableLSNs (runWrites ⟨s.lsn + 1⟩ rest).2, s.lsn + 1 < x := hmem
      refine ⟨?_, ?_, ?_⟩
      · rw [durableLSNs_cons_true, List.chain'_cons']
        exact ⟨fun y hy => hmem2 y (List.mem_of_mem_head? hy), hchain⟩
      · intro x hx
        rw [durableLSNs_cons_true] at hx
        rcases List.mem_cons.mp hx with rfl | hx2
        · omega
        · have := hmem2 x hx2
          omega
      · exact le_trans (Nat.le_succ _) hle2

/-- Claim C2: the LSN assigned to a write is always the current LSN plus one,
`setLSN` never lowers the stored LSN, and along any sequence of write
requests (some of which may fail their file write) the LSNs of the durably
written operations are pairwise strictly increasing — for any durable A
written before durable B, the LSN of A is below the LSN of B; the writer LSN
never decreases across the run. -/
theorem c2_lsn_strictly_monotonic (s : WriterLSN) (l : Nat) (ok : Bool)
    (oks : List Bool) :
    ((writerWrite s ok).2.1 = getLSN s + 1) ∧
      (s.lsn ≤ (setLSN s l).lsn) ∧
      List.Pairwise (· < ·) (durableLSNs (runWrites s oks).2) ∧
      s.lsn ≤ (runWrites s oks).1.lsn := by
  refine ⟨?_, setLSN_mono s l,
    List.chain'_iff_pairwise.mp (runWrites_durable_facts oks s).1,
    (runWrites_durable_facts oks s).2.2⟩
  by_cases h : ok = true <;> simp [writerWrite, h]

/-! ### Claim C5: rotation -/

/-- Claim C5: `rotate` aims at the file named `lsn2str(last LSN + 1) ++
".jlog"` (zero-padded to 10 digits) in the database directory; it is a no-op
when the current file already has that name; it fails with the
`already exists` error when a non-empty file of that name is on disk; and it
reuses a pre-existing empty file of that name, succeeding with that file as
the new current file and without touching any file contents. -/
theorem c5_rotate_spec (dir : String) (st : WriterSt) (fs : List FSFile) :
    (st.curName = some (nextJlogName dir st.lsn) → rotate dir st fs = .ok (st, fs)) ∧
      (st.curName ≠ some (nextJlogName dir st.lsn) →
        (∀ sz, fsStat fs (nextJlogName dir st.lsn) = some sz → sz ≠ 0 →
          rotate dir st fs
            = .error ("file " ++ nextJlogName dir st.lsn ++ " already exists (and not empty)")) ∧
        (fsStat fs (nextJlogName dir st.lsn) = some 0 →
          rotate dir st fs = .ok ({ st with curName := some (nextJlogName dir st.lsn) }, fs)) ∧
        (fsStat fs (nextJlogName dir st.lsn) = none →
          rotate dir st fs
            = .ok ({ st with curName := some (nextJlogName dir st.lsn) },
                fs ++ [{ name := nextJlogName dir st.lsn, size := 0 }]))) := by
  constructor
  · intro h
    simp [rotate, h]
  · intro h
    refine ⟨?_, ?_, ?_⟩
    · intro sz hstat hsz
      simp [rotate, h, hstat, hsz]
    · intro hstat
      simp [rotate, h, hstat]
    · intro hstat
      simp [rotate, h, hstat]

/-- Witness for C5 at concrete states: a no-op rotation, a hard failure on a
non-empty `0000000001.jlog`, and a successful reuse of an empty one. -/
theorem c5_rotate_witness :
    rotate "db" { lsn := 0, curName := some "db/0000000001.jlog", closed := false } []
      = .ok ({ lsn := 0, curName := some "db/0000000001.jlog", closed := false }, []) ∧
    rotate "db" newWriter [{ name := "db/0000000001.jlog", size := 7 }]
      = .error "file db/0000000001.jlog already exists (and not empty)" ∧
    rotate "db" newWriter [{ name := "db/0000000001.jlog", size := 0 }]
      = .ok ({ lsn := 0, curName := some "db/0000000001.jlog", closed := false },
          [{ name := "db/0000000001.jlog", size := 0 }]) := by
  refine ⟨?_, ?_, ?_⟩
  · exact (c5_rotate_spec "db"
      { lsn := 0, curName := some "db/0000000001.jlog", closed := false } []).1 (by decide)
  · exact ((c5_rotate_spec "db" newWriter
      [{ name := "db/0000000001.jlog", size := 7 }]).2 (by decide)).1 7 (by decide) (by decide)
  · exact ((c5_rotate_spec "db" newWriter
      [{ name := "db/0000000001.jlog", size := 0 }]).2 (by decide)).2.1 (by decide)

/-! ### Claim C6: writer lifecycle state machine -/

/-- Claim C6 is false of the source writer: there is no `created → loaded →
running → closed` status field at all.  Concretely, `Start` called on a
freshly constructed writer — `Load` was never called, so the writer is not in
any "loaded" state — succeeds instead of failing with an invalid-status
error. -/
theorem c6_start_without_load_succeeds :
    Start "db" newWriter []
      = .ok ({ lsn := 0, curName := some "db/0000000001.jlog", closed := false },
          [{ name := "db/0000000001.jlog", size := 0 }]) := by
  decide

/-- Claim C6 (amended): the writer has no lifecycle state machine at all.
`Start` performs no state check and may be called without `Load`; it fails
exactly when rotation fails, never with an invalid-status error.  Moreover
the `closed` flag is never assigned anywhere in the source, so the
`ErrClosed` guards in `Send` and `Close` are dead code: `Close` leaves the
flag exactly as it found it, a first `Close` on a fresh writer succeeds
(still without setting the flag), a second `Close` panics on the double
channel close instead of returning `ErrClosed`, and a `Send` after `Close`
panics on the closed channel instead of returning `ErrClosed`. -/
theorem c6_no_lifecycle_state_machine :
    (∀ dir fs e, ∀ st : WriterSt, Start dir st fs = .error e →
        e = "file " ++ nextJlogName dir st.lsn ++ " already exists (and not empty)") ∧
      (∀ st : WriterChanSt, (Close st).2.closed = st.closed) ∧
      (∀ st : WriterChanSt, st.closed = false → st.chanClosed = false →
        Close st = (.closedOk, { closed := false, chanClosed := true })) ∧
      (∀ st : WriterChanSt, st.closed = false → st.chanClosed = true →
        (Close st).1 = .panicked ∧ (Close st).1 ≠ .errClosed) ∧
      (∀ st : WriterChanSt, st.closed = false → st.chanClosed = true →
        Send st = .panicked ∧ Send st ≠ .errClosed) := by
  refine ⟨?_, ?_, ?_, ?_, ?_⟩
  · intro dir fs e st h
    by_cases hcur : st.curName = some (nextJlogName dir st.lsn)
    · simp [Start, rotate, hcur] at h
    · rcases hstat : fsStat fs (nextJlogName dir st.lsn) with _ | sz
      · simp [Start, rotate, hcur, hstat] at h
      · by_cases hsz : sz = 0
        · simp [Start, rotate, hcur, hstat, hsz] at h
        · simp [Start, rotate, hcur, hstat, hsz] at h
          exact h.symm
  · intro st
    by_cases hc : st.closed
    · simp [Close, hc]
    · by_cases hch : st.chanClosed <;> simp [Close, hc, hch]
  · intro st hc hch
    cases st
    subst hc
    subst hch
    simp [Close]
  · intro st hc hch
    simp [Close, hc, hch]
  · intro st hc hch
    simp [Send, hc, hch]

/-- Witness for C6 (amended) at concrete lifecycle states: a fresh writer
closes successfully without the `closed` flag ever becoming true, and on the
resulting state a second `Close` and a `Send` panic rather than returning
`ErrClosed`. -/
theorem c6_no_lifecycle_witness :
    "file db/0000000001.jlog already exists (and not empty)"
        = "file " ++ nextJlogName "db" 0 ++ " already exists (and not empty)" ∧
      Close newWriterChan = (.closedOk, { closed := false, chanClosed := true }) ∧
      (Close newWriterChan).2.closed = newWriterChan.closed ∧
      (Close { closed := false, chanClosed := true }).1 = .panicked ∧
      (Close { closed := false, chanClosed := true }).1 ≠ .errClosed ∧
      Send { closed := false, chanClosed := true } = .panicked ∧
      Send { closed := false, chanClosed := true } ≠ .errClosed := by
  refine ⟨?_, ?_, ?_, ?_, ?_, ?_, ?_⟩
  · exact (c6_no_lifecycle_state_machine).1 "db"
      [{ name := "db/0000000001.jlog", size := 7 }]
      "file db/0000000001.jlog already exists (and not empty)" newWriter (by decide)
  · exact (c6_no_lifecycle_state_machine).2.2.1 newWriterChan rfl rfl
  · exact (c6_no_lifecycle_state_machine).2.1 newWriterChan
  · exact ((c6_no_lifecycle_state_machine).2.2.2.1
      { closed := false, chanClosed := true } rfl rfl).1
  · exact ((c6_no_lifecycle_state_machine).2.2.2.1
      { closed := false, chanClosed := true } rfl rfl).2
  · exact ((c6_no_lifecycle_state_machine).2.2.2.2
      { closed := false, chanClosed := true } rfl rfl).1
  · exact ((c6_no_lifecycle_state_machine).2.2.2.2
      { closed := false, chanClosed := true } rfl rfl).2

/-! ### Claim C7: failed snapshot/compaction atomicity -/

/-- Claim C7 is false as stated for errors that occur after the dump itself:
here `compactImpl` succeeds but the `Close` of the in-progress file fails.
The error is reported on the callback, yet the in-progress file
`db/0000000003.jlog.inprogress` is left on disk — it is neither renamed nor
deleted, contradicting "the in-progress output file is closed and deleted"
for "every error occurring during the background dump". -/
theorem c7_close_error_leaves_inprogress :
    compactBackground "db" ["0000000001.jlog"] 3
        { openErr := none, implErr := none, closeErr := some "close failed"
          renameErr := none, removeErr := fun _ => none }
        ["db/0000000001.jlog"]
      = (["db/0000000001.jlog", "db/0000000003.jlog.inprogress"], some "close failed") ∧
      "db/0000000003.jlog.inprogress" ∈
        (compactBackground "db" ["0000000001.jlog"] 3
          { openErr := none, implErr := none, closeErr := some "close failed"
            renameErr := none, removeErr := fun _ => none }
          ["db/0000000001.jlog"]).1 := by
  constructor
  · rfl
  · rw [show (compactBackground "db" ["0000000001.jlog"] 3
        { openErr := none, implErr := none, closeErr := some "close failed"
          renameErr := none, removeErr := fun _ => none }
        ["db/0000000001.jlog"]).1
      = ["db/0000000001.jlog", "db/0000000003.jlog.inprogress"] from rfl]
    simp

/-- Claim C7 (amended): when the dump itself (`compactImpl`) fails, the
background job closes and deletes the in-progress file, removes no
pre-existing source file — the file system is returned exactly as it was —
and reports the dump error on the callback of the request; the writer state
is not touched by the background job.  (Errors of the later close, rename or
remove steps do not enjoy the full guarantee; see the counterexample.) -/
theorem c7_failed_dump_atomicity (dir : String) (jlogs : List String) (lsn : Nat)
    (io : CompactIO) (fs : List String) (e : String)
    (hin : (dir ++ "/" ++ lsn2str lsn ++ ".jlog.inprogress") ∉ fs)
    (hopen : io.openErr = none) (himpl : io.implErr = some e) :
    compactBackground dir jlogs lsn io fs = (fs, some e) := by
  simp only [compactBackground, if_neg hin, hopen, himpl]
  rw [List.erase_append_right _ hin]
  simp

/-- Witness for C7 (amended): a failing dump over one source jlog leaves the
directory exactly as it was and reports the error. -/
theorem c7_failed_dump_witness :
    compactBackground "db" ["0000000001.jlog"] 3
        { openErr := none, implErr := some "disk full", closeErr := none
          renameErr := none, removeErr := fun _ => none }
        ["db/0000000001.jlog"]
      = (["db/0000000001.jlog"], some "disk full") :=
  c7_failed_dump_atomicity "db" ["0000000001.jlog"] 3
    { openErr := none, implErr := some "disk full", closeErr := none
      renameErr := none, removeErr := fun _ => none }
    ["db/0000000001.jlog"] "disk full" (by decide) rfl rfl

/-! ### Claim C4: replay semantics of applyTxn -/

/-- Claim C4: replaying a `set` materializes the record with the LSN of the
operation embedded into it in the tree of the target space, creating the
space when absent and replacing any prior record at the key while leaving all
other keys and all other spaces untouched; replaying a `del` removes the
record at the key when the target space exists (leaving other keys and
spaces untouched) and is a no-op on the registry otherwise; any other
operation kind makes `applyTxn` fail with the unknown-operation error, and
therefore makes the replay loop of `Load` (hence `Open`) fail as well. -/
theorem c4_applyTxn_semantics {α : Type} (db : DB α) (txn : Operation α)
    (lsn0 : Nat) (rest : List (Operation α)) :
    (txn.op = OType.opSet →
      ∃ db1, applyTxn db txn = .ok (db1, txn.lsn) ∧
        ∃ sp1, dbFind db1 txn.record.tag = some sp1 ∧
          treeFind sp1.tree (keyBytes txn.record.key)
            = some { txn.record with lsn := txn.lsn } ∧
          (∀ kb, kb ≠ keyBytes txn.record.key →
            treeFind sp1.tree kb
              = treeFind ((dbFind db txn.record.tag).getD (newSpace txn.record.tag)).tree kb) ∧
          (∀ nm, nm ≠ txn.record.tag → dbFind db1 nm = dbFind db nm)) ∧
      (txn.op = OType.opDel → ∀ sp, dbFind db txn.record.tag = some sp → TreeWF sp.tree →
        ∃ db1, applyTxn db txn = .ok (db1, txn.lsn) ∧
          ∃ sp1, dbFind db1 txn.record.tag = some sp1 ∧
            treeFind sp1.tree (keyBytes txn.record.key) = none ∧
            (∀ kb, kb ≠ keyBytes txn.record.key →
              treeFind sp1.tree kb = treeFind sp.tree kb) ∧
            (∀ nm, nm ≠ txn.record.tag → dbFind db1 nm = dbFind db nm)) ∧
      (txn.op = OType.opDel → dbFind db txn.record.tag = none →
        applyTxn db txn = .ok (db, txn.lsn)) ∧
      (txn.op ≠ OType.opSet → txn.op ≠ OType.opDel →
        applyTxn db txn = .error "unknown operation type" ∧
          loadFromOps db lsn0 (txn :: rest) = .error "unknown operation type") := by
  refine ⟨?_, ?_, ?_, ?_⟩
  · intro hop
    simp only [applyTxn, hop]
    refine ⟨_, rfl, _, dbFind_dbSet_self _ _ _, ?_, ?_, ?_⟩
    · have h := treeFind_treeInsert_self
        ((dbFind db txn.record.tag).getD (newSpace txn.record.tag)).tree
        { txn.record with lsn := txn.lsn }
      simpa [TreeSet] using h
    · intro kb hkb
      have h := treeFind_treeInsert_ne
        ((dbFind db txn.record.tag).getD (newSpace txn.record.tag)).tree
        { txn.record with lsn := txn.lsn } kb (by simpa using hkb)
      simpa [TreeSet] using h
    · intro nm hnm
      exact dbFind_dbSet_ne db txn.record.tag nm _ hnm
  · intro hop sp hsp hwf
    simp only [applyTxn, hop, hsp]
    refine ⟨_, rfl, _, dbFind_dbSet_self _ _ _, ?_, ?_, ?_⟩
    · have h := treeFind_treeRemove_self sp.tree (keyBytes txn.record.key) hwf
      simpa [TreeDel] using h
    · intro kb hkb
      have h := treeFind_treeRemove_ne sp.tree (keyBytes txn.record.key) kb hkb
      simpa [TreeDel] using h
    · intro nm hnm
      exact dbFind_dbSet_ne db txn.record.tag nm _ hnm
  · intro hop hnone
    simp [applyTxn, hop, hnone]
  · intro h1 h2
    have herr : ∀ t : Operation α, t.op = txn.op →
        applyTxn db t = .error "unknown operation type" := by
      intro t ht
      cases hop : txn.op with
      | opSet => exact absurd hop h1
      | opDel => exact absurd hop h2
      | opBegin => simp [applyTxn, ht, hop]
      | opCommit => simp [applyTxn, ht, hop]
      | opRollback => simp [applyTxn, ht, hop]
    refine ⟨herr txn rfl, ?_⟩
    by_cases hz : txn.lsn = 0
    · simp only [loadFromOps, if_pos hz, herr { txn with lsn := lsn0 + 1 } (by simp)]
    · simp only [loadFromOps, if_neg hz, herr txn rfl]

/-- Witness for C4 at concrete operations on the empty registry: an `opBegin`
operation fails `applyTxn` and the replay loop, a `del` into a missing space
is a no-op, and a `set` succeeds. -/
theorem c4_applyTxn_witness :
    applyTxn (α := Nat) []
        { lsn := 5, op := OType.opBegin, time := 0
          record := { lsn := 0, time := 0, key := GoKey.goBytes [1], tag := "users", value := 7 } }
      = .error "unknown operation type" ∧
      loadFromOps (α := Nat) [] 0
          [{ lsn := 5, op := OType.opBegin, time := 0
             record := { lsn := 0, time := 0, key := GoKey.goBytes [1], tag := "users", value := 7 } }]
        = .error "unknown operation type" ∧
      applyTxn (α := Nat) []
          { lsn := 5, op := OType.opDel, time := 0
            record := { lsn := 0, time := 0, key := GoKey.goBytes [1], tag := "users", value := 7 } }
        = .ok ([], 5) ∧
      (applyTxn (α := Nat) []
          { lsn := 5, op := OType.opSet, time := 0
            record := { lsn := 0, time := 0, key := GoKey.goBytes [1], tag := "users", value := 7 } }).toOption.isSome
        = true := by
  have hb := c4_applyTxn_semantics (α := Nat) []
    { lsn := 5, op := OType.opBegin, time := 0
      record := { lsn := 0, time := 0, key := GoKey.goBytes [1], tag := "users", value := 7 } } 0 []
  have hd := c4_applyTxn_semantics (α := Nat) []
    { lsn := 5, op := OType.opDel, time := 0
      record := { lsn := 0, time := 0, key := GoKey.goBytes [1], tag := "users", value := 7 } } 0 []
  have hs := c4_applyTxn_semantics (α := Nat) []
    { lsn := 5, op := OType.opSet, time := 0
      record := { lsn := 0, time := 0, key := GoKey.goBytes [1], tag := "users", value := 7 } } 0 []
  refine ⟨(hb.2.2.2 (by decide) (by decide)).1, (hb.2.2.2 (by decide) (by decide)).2,
    hd.2.2.1 rfl rfl, ?_⟩
  obtain ⟨db1, happly, -⟩ := hs.1 rfl
  rw [happly]
  rfl

/-! ### Claim C1: recovery file selection -/

/-- Claim C1 is false of the source `writer.list`/`writer.Load`: the selection
never looks at `.snap` files at all and applies no LSN-floor filtering.  On a
directory holding a single snapshot file, the claimed selection replays
`0000000005.snap`, while the code selects nothing (and would replay an empty
history). -/
theorem c1_recovery_selection_counterexample :
    list [{ name := "0000000005.snap", isDir := false, isRegular := true }] = [] ∧
      specSelectedFiles [{ name := "0000000005.snap", isDir := false, isRegular := true }]
        = ["0000000005.snap"] ∧
      list [{ name := "0000000005.snap", isDir := false, isRegular := true }]
        ≠ specSelectedFiles [{ name := "0000000005.snap", isDir := false, isRegular := true }] := by
  refine ⟨by decide, by decide, by decide⟩

/-- Claim C1 (amended): `Load` replays exactly the regular, non-directory
entries whose names end in `".jlog"`, in lexicographic filename order; `.snap`
files, `.inprogress` files and all other names are ignored, and no LSN-floor
filtering against a snapshot takes place. -/
theorem c1_load_selection_characterization (entries : List DirEntry) (s : String) :
    (s ∈ list entries ↔
      ∃ e, e ∈ entries ∧ e.name = s ∧ e.isDir = false ∧ e.isRegular = true ∧
        strEndsWith s ".jlog" = true) ∧
      List.Sorted (· ≤ ·) (list entries) := by
  constructor
  · simp only [list, List.mem_insertionSort, List.mem_map, List.mem_filter]
    constructor
    · rintro ⟨e, ⟨he, hp⟩, rfl⟩
      simp only [Bool.and_eq_true, Bool.not_eq_true'] at hp
      exact ⟨e, he, rfl, hp.1.1, hp.1.2, hp.2⟩
    · rintro ⟨e, he, rfl, hd, hr, hs⟩
      exact ⟨e, ⟨he, by simp [hd, hr, hs]⟩, rfl⟩
  · exact List.sorted_insertionSort _ _

end Kvdb
